import Mathlib

/-!
Verification of the SnippetBox tutorial web application (yehtetmaungmaung/go-web).

The development shallowly embeds the snippet data-access layer
(`internal/models/snippets.go` together with its completed form in the
tutorial notes), the request handlers (`cmd/web/handlers.go` and the
database-driven stage of the notes), the template cache
(`newTemplateCache`) and the buffered render helper (final form in
docs/chapter5.md).

Modelling conventions:
- SQL `UTC_TIMESTAMP()` is an explicit `now : Int` parameter (seconds).
- The database is a list of stored rows plus the auto-increment counter.
- Go's `(value, error)` pairs are modelled as pairs of `Option`s, mirroring
  the two return slots; driver/connection faults that the pure model cannot
  produce are supplied as explicit oracle arguments.
-/

namespace SnippetBox

/-- One second-granularity day, for `DATE_ADD(..., INTERVAL ? DAY)`. -/
def secondsPerDay : Int := 86400

/-- A row of the `snippets` table / the Go `models.Snippet` struct:
`ID int`, `Title string`, `Content string`, `Created time.Time`,
`Expires time.Time` (timestamps as seconds, UTC). -/
structure Snippet where
  id : Int
  title : String
  content : String
  created : Int
  expires : Int
deriving Repr, DecidableEq

/-- The `snippets` table: stored rows plus the auto-increment counter that
assigns the next primary key. -/
structure Database where
  rows : List Snippet
  nextId : Int
deriving Repr, DecidableEq

/-- Go error values that flow through the model layer:
`sql.ErrNoRows` (the driver's no-rows signal), `models.ErrNoRecord`
(the domain error from internal/models/errors.go), and any other
driver/connection error carrying a message. -/
inductive GoError where
  | sqlErrNoRows
  | errNoRecord
  | otherErr (msg : String)
deriving Repr, DecidableEq

/-- SQL semantics of the query in `SnippetModel.Get`:
`SELECT ... WHERE expires > UTC_TIMESTAMP() AND id = ?`.
`id` is the primary key, so at most one row matches; `QueryRow` yields the
first matching row, if any. -/
def queryRowGet (db : Database) (now : Int) (id : Int) : Option Snippet :=
  db.rows.find? (fun s => decide (now < s.expires) && decide (s.id = id))

/-- The `row.Scan(&s.ID, ...)` step in `SnippetModel.Get`: with no matching
row it fails with `sql.ErrNoRows`; with a matching row the driver either
populates the struct or fails with some other conversion/connection error,
supplied here as the oracle `fault`. -/
def rowScan (db : Database) (now : Int) (id : Int) (fault : Option String) :
    Except GoError Snippet :=
  match queryRowGet db now id with
  | none => .error .sqlErrNoRows
  | some s =>
    match fault with
    | some msg => .error (.otherErr msg)
    | none => .ok s

namespace SnippetModel

/-- `SnippetModel.Get` from internal/models/snippets.go: scans the single
matching row; on `sql.ErrNoRows` (checked with `errors.Is`) it returns
`(nil, ErrNoRecord)`, on any other scan error `(nil, err)` unchanged, and on
success `(s, nil)`. The pair mirrors Go's `(*Snippet, error)` return. -/
def Get (db : Database) (now : Int) (id : Int) (fault : Option String) :
    Option Snippet × Option GoError :=
  match rowScan db now id fault with
  | .error e => if e = .sqlErrNoRows then (none, some .errNoRecord) else (none, some e)
  | .ok s => (some s, none)

end SnippetModel

/-- Descending-id comparison used by `ORDER BY id DESC`. -/
def idGE (a b : Snippet) : Prop := b.id ≤ a.id

instance : DecidableRel idGE := fun a b => inferInstanceAs (Decidable (b.id ≤ a.id))

instance : IsTotal Snippet idGE := ⟨fun a b => le_total b.id a.id⟩

instance : IsTrans Snippet idGE := ⟨fun _ _ _ hab hbc => le_trans hbc hab⟩

/-- SQL semantics of the query in `SnippetModel.Latest`:
`SELECT ... WHERE expires > UTC_TIMESTAMP() ORDER BY id DESC LIMIT 10`. -/
def queryLatest (db : Database) (now : Int) : List Snippet :=
  (((db.rows.filter (fun s => decide (now < s.expires))).insertionSort idGE).take 10)

namespace SnippetModel

/-- `SnippetModel.Latest` in its completed form (tutorial notes,
"Multi-record SQL queries"): runs the query, then the `rows.Next()` loop
scans each row in cursor order into the `snippets` slice. On success the
slice holds exactly the query's rows in order; a `Query`, mid-iteration
`Scan`, or `rows.Err()` failure returns `(nil, err)`, supplied here as the
oracle `qErr`. The pair mirrors Go's `([]*Snippet, error)` return. -/
def Latest (db : Database) (now : Int) (qErr : Option GoError) :
    Option (List Snippet) × Option GoError :=
  match qErr with
  | some e => (none, some e)
  | none => (some (queryLatest db now), none)

/-- `SnippetModel.Insert` from internal/models/snippets.go:
`INSERT INTO snippets (title, content, created, expires) VALUES(?, ?,
UTC_TIMESTAMP(), DATE_ADD(UTC_TIMESTAMP(), INTERVAL ? DAY))` followed by
`LastInsertId()`. `execFault` models a statement/connection failure of
`DB.Exec` (no row stored); `lastIdFault` models a `LastInsertId` failure
(row already stored). Both failure paths return `(0, err)` with no retry.
Returns Go's `(int, error)` pair together with the resulting database. -/
def Insert (db : Database) (now : Int) (title content : String) (expires : Int)
    (execFault lastIdFault : Option String) :
    (Int × Option GoError) × Database :=
  match execFault with
  | some e => ((0, some (.otherErr e)), db)
  | none =>
    let row : Snippet :=
      ⟨db.nextId, title, content, now, now + expires * secondsPerDay⟩
    let db1 : Database := ⟨db.rows ++ [row], db.nextId + 1⟩
    match lastIdFault with
    | some e => ((0, some (.otherErr e)), db1)
    | none => ((db.nextId, none), db1)

end SnippetModel

/-! ### HTTP response writer model (net/http) -/

/-- The observable state of an `http.ResponseWriter`: the response header
map, the committed status code (none until the first `WriteHeader`/`Write`),
and the body bytes written so far. -/
structure RespState where
  headers : List (String × String)
  code : Option Int
  body : String
deriving Repr, DecidableEq

/-- A response writer before anything has been written to it. -/
def freshResp : RespState := ⟨[], none, ""⟩

/-- `Header().Set(k, v)`: replace any existing values for the key. -/
def headerSet (hs : List (String × String)) (k v : String) :
    List (String × String) :=
  hs.filter (fun p => p.1 ≠ k) ++ [(k, v)]

/-- `Header().Del(k)`: drop all values for the key. -/
def headerDel (hs : List (String × String)) (k : String) :
    List (String × String) :=
  hs.filter (fun p => p.1 ≠ k)

/-- `Header().Get(k)`: first value for the key, if any. -/
def headerGet (hs : List (String × String)) (k : String) : Option String :=
  (hs.find? (fun p => p.1 = k)).map Prod.snd

/-- `w.WriteHeader(code)`: commits the status code; a second call is
ignored (Go keeps the first status and only logs a warning). -/
def writeHeader (w : RespState) (c : Int) : RespState :=
  match w.code with
  | some _ => w
  | none => { w with code := some c }

/-- `w.Write(s)`: an implicit `WriteHeader(200)` if no status was committed
yet, then append the bytes to the body. -/
def write (w : RespState) (s : String) : RespState :=
  let w1 := match w.code with
    | none => { w with code := some 200 }
    | some _ => w
  { w1 with body := w1.body ++ s }

/-- `http.StatusText` restricted to the codes this application uses. -/
def statusText (c : Int) : String :=
  if c = 200 then "OK"
  else if c = 404 then "Not Found"
  else if c = 405 then "Method Not Allowed"
  else if c = 500 then "Internal Server Error"
  else ""

/-- `http.Error(w, msg, code)`: deletes Content-Length, sets the two plain
text headers, writes the status code, then `Fprintln` appends the message
and a newline. -/
def httpError (w : RespState) (msg : String) (c : Int) : RespState :=
  let hs := headerSet
    (headerSet (headerDel w.headers "Content-Length")
      "Content-Type" "text/plain; charset=utf-8")
    "X-Content-Type-Options" "nosniff"
  write (writeHeader { w with headers := hs } c) (msg ++ "\n")

/-- `http.NotFound(w, r)`, i.e. `http.Error(w, "404 page not found", 404)`. -/
def httpNotFound (w : RespState) : RespState :=
  httpError w "404 page not found" 404

/-- `http.Redirect(w, r, url, code)`: sets the Location header and writes
the status; the short HTML body is only written for GET requests. -/
def redirect (w : RespState) (method url : String) (c : Int) : RespState :=
  let w1 := writeHeader { w with headers := headerSet w.headers "Location" url } c
  if method = "GET" then
    write w1 ("<a href=\"" ++ url ++ "\">" ++ statusText c ++ "</a>.\n")
  else w1

/-- The `serverError` helper (cmd/web/helpers.go): logs the trace, then
sends the generic `http.Error(w, http.StatusText(500), 500)` response. The
error argument only feeds the log. -/
def serverError (w : RespState) (_err : GoError) : RespState :=
  httpError w (statusText 500) 500

/-- The `clientError` helper: `http.Error(w, http.StatusText(status), status)`. -/
def clientError (w : RespState) (status : Int) : RespState :=
  httpError w (statusText status) status

/-- The `notFound` helper: `clientError(w, 404)`. -/
def appNotFound (w : RespState) : RespState :=
  clientError w 404

/-! ### strconv.Atoi -/

/-- Decimal digit value of a character, if it is a digit. -/
def digitVal (c : Char) : Option Nat :=
  if '0' ≤ c ∧ c ≤ '9' then some (c.toNat - '0'.toNat) else none

/-- Accumulate a run of decimal digits; fails on any non-digit. -/
def parseDigits : List Char → Nat → Option Nat
  | [], acc => some acc
  | c :: cs, acc =>
    match digitVal c with
    | none => none
    | some d => parseDigits cs (acc * 10 + d)

/-- `strconv.Atoi`: an optional sign followed by at least one digit;
anything else is an error (`none`). The 64-bit range check is not
modelled — out-of-range numerals are outside every claim considered here. -/
def atoi (s : String) : Option Int :=
  match s.data with
  | [] => none
  | '-' :: cs =>
    if cs = [] then none else (parseDigits cs 0).map (fun n => -(n : Int))
  | '+' :: cs =>
    if cs = [] then none else (parseDigits cs 0).map (fun n => (n : Int))
  | cs => (parseDigits cs 0).map (fun n => (n : Int))

/-! ### Handlers -/

/-- `snippetView` from cmd/web/handlers.go (the checked-in Go package):
parses the id query parameter with `strconv.Atoi`; on a parse error it
responds `http.NotFound`, otherwise it writes the plain-text body via
`fmt.Fprintf(w, "Display a specific snippet with ID %d", id)`. Note the
code checks only `err != nil`, with no `id < 1` test. -/
def snippetView (idParam : String) (w : RespState) : RespState :=
  match atoi idParam with
  | none => httpNotFound w
  | some id => write w ("Display a specific snippet with ID " ++ toString id)

/-- `app.snippetCreate` at the database-driven stage of the tutorial
(part_006, "Using the model in our handlers"): non-POST requests get the
Allow header and `clientError(405)`; otherwise the fixed dummy snippet is
inserted through the store, a store failure goes to `serverError`, and
success redirects with 303 to the view page of the new id. Returns the
response together with the database after the call. -/
def snippetCreate (db : Database) (now : Int) (method : String)
    (execFault lastIdFault : Option String) (w : RespState) :
    RespState × Database :=
  if method ≠ "POST" then
    (clientError { w with headers := headerSet w.headers "Allow" "POST" } 405, db)
  else
    let title := "0 snail"
    let content :=
      "0 snaill\nClimb Mount fuji,\nBut slowly, slowly!\n\n- Kobayashi Issa"
    let expires : Int := 7
    let r := SnippetModel.Insert db now title content expires execFault lastIdFault
    match r.1.2 with
    | some e => (serverError w e, r.2)
    | none =>
      (redirect w method ("/snippet/view?id=" ++ toString r.1.1) 303, r.2)

/-! ### Template cache and render helper -/

/-- The per-request dynamic data passed to templates
(`templateData` with `CurrentYear`, `Snippet`, `Snippets`). -/
structure TemplateData where
  currentYear : Int
  snippet : Option Snippet
  snippets : List Snippet

/-- A compiled template set. Executing `"base"` on some data writes bytes
to the given writer and may fail; `exec` yields the bytes written before
returning (possibly a partial page) and the optional execution error. -/
structure TemplateSet where
  exec : TemplateData → String × Option String

/-- `filepath.Base` for the slash-separated paths the cache build uses:
the last path component. -/
def filepathBase (p : String) : String :=
  match (p.splitOn "/").getLast? with
  | some s => s
  | none => p

/-- Map assignment `cache[name] = ts` on the association-list model of
`map[string]*template.Template`. -/
def cacheInsert (cache : List (String × TemplateSet)) (name : String)
    (ts : TemplateSet) : List (String × TemplateSet) :=
  cache.filter (fun p => p.1 ≠ name) ++ [(name, ts)]

/-- Cache lookup `ts, ok := cache[page]`. -/
def cacheLookup (cache : List (String × TemplateSet)) (page : String) :
    Option TemplateSet :=
  (cache.find? (fun p => p.1 = page)).map Prod.snd

/-- The `for _, page := range pages` loop of `newTemplateCache` (part_002):
each page is parsed together with the base layout and the nav partial; the
first parse error aborts the whole build. `parseFiles` stands for
`template.ParseFiles` on the listed files. -/
def buildCacheLoop (parseFiles : List String → Except String TemplateSet) :
    List String → List (String × TemplateSet) →
    Except String (List (String × TemplateSet))
  | [], cache => .ok cache
  | page :: rest, cache =>
    match parseFiles
        ["./ui/html/base.tmpl.html", "./ui/html/partials/nav.tmpl.html", page] with
    | .error e => .error e
    | .ok ts => buildCacheLoop parseFiles rest (cacheInsert cache (filepathBase page) ts)

/-- `newTemplateCache` (part_002): glob the page templates (result and
possible glob error are inputs here), then build the cache page by page,
returning `(nil, err)` on the first failure. -/
def newTemplateCache (globFault : Option String) (pages : List String)
    (parseFiles : List String → Except String TemplateSet) :
    Except String (List (String × TemplateSet)) :=
  match globFault with
  | some e => .error e
  | none => buildCacheLoop parseFiles pages []

/-- The `render` helper in its final buffered form (docs/chapter5.md,
"Catching runtime errors"): look the page up in the cache (absence is a
server error), execute the template set into a fresh `bytes.Buffer`, on an
execution error discard the buffer and respond via `serverError`, and only
after a successful buffered execution write the status code and copy the
buffer to the response. -/
def render (cache : List (String × TemplateSet)) (w : RespState)
    (status : Int) (page : String) (data : TemplateData) : RespState :=
  match cacheLookup cache page with
  | none =>
    serverError w (.otherErr ("the template " ++ page ++ " does not exist"))
  | some ts =>
    let buf := ts.exec data
    match buf.2 with
    | some e => serverError w (.otherErr e)
    | none => write (writeHeader w status) buf.1

/-! ### Shared helper lemmas -/

/-- A row found by the Get query satisfies the WHERE clause and is stored. -/
theorem queryRowGet_found (db : Database) (now : Int) (id : Int)
    (s : Snippet) (h : queryRowGet db now id = some s) :
    now < s.expires ∧ s.id = id ∧ s ∈ db.rows := by
  have hp := List.find?_some h
  have hm := List.mem_of_find?_eq_some h
  simp only [Bool.and_eq_true, decide_eq_true_eq] at hp
  exact ⟨hp.1, hp.2, hm⟩

/-- Every row produced by the Latest query satisfies the WHERE clause. -/
theorem mem_queryLatest_unexpired (db : Database) (now : Int) (s : Snippet)
    (h : s ∈ queryLatest db now) : now < s.expires := by
  have h1 : s ∈ (db.rows.filter
      (fun s => decide (now < s.expires))).insertionSort idGE :=
    (List.take_sublist _ _).subset h
  have h2 : s ∈ db.rows.filter (fun s => decide (now < s.expires)) :=
    (List.perm_insertionSort idGE _).subset h1
  have := (List.mem_filter.mp h2).2
  simpa using this

/-- A small concrete database used by the concrete-input corollaries:
rows with ids 1 and 3 are unexpired at time 10, the row with id 2 expired
at time 5, and the auto-increment counter stands at 4. -/
def dbDemo : Database :=
  ⟨[⟨1, "a", "x", 0, 100⟩, ⟨3, "c", "z", 0, 100⟩, ⟨2, "b", "y", 0, 5⟩], 4⟩

/-! ### C3 — snippetView on a non-positive id -/

/-- C3: the claim says a non-numeric or non-positive id yields HTTP 404.
The checked-in handler (cmd/web/handlers.go, `snippetView`) indeed 404s on
a non-numeric id, but its code checks only `err != nil`, omitting the
`id < 1` test that its own comment (and the tutorial notes the file was
copied from, which read `if err != nil || id < 1`) prescribe: at
`/snippet/view?id=-1` it responds 200 and displays the id. -/
theorem snippetView_negative_id_responds_200 :
    snippetView "-1" freshResp =
      { headers := [], code := some 200,
        body := "Display a specific snippet with ID -1" } ∧
    snippetView "abc" freshResp =
      httpError freshResp "404 page not found" 404 := by
  constructor <;> rfl

/-! ### C4 — Get translates the no-rows signal -/

/-- C4: when the Get select matches zero rows, `SnippetModel.Get` returns
the domain error `ErrNoRecord` and never the driver's `sql.ErrNoRows`;
every other scan failure is returned unchanged. -/
theorem Get_translates_noRows (db : Database) (now : Int) (id : Int)
    (fault : Option String) :
    (queryRowGet db now id = none →
      SnippetModel.Get db now id fault = (none, some .errNoRecord)) ∧
    (SnippetModel.Get db now id fault).2 ≠ some .sqlErrNoRows ∧
    (∀ s msg, queryRowGet db now id = some s → fault = some msg →
      SnippetModel.Get db now id fault = (none, some (.otherErr msg))) := by
  unfold SnippetModel.Get rowScan
  cases hq : queryRowGet db now id with
  | none => simp
  | some s => cases fault <;> simp

/-- The translation law at a concrete input: an empty table yields
`ErrNoRecord`, and a mid-scan driver fault is passed through unchanged. -/
theorem Get_translates_noRows_witness :
    SnippetModel.Get ⟨[], 1⟩ 0 1 none = (none, some .errNoRecord) ∧
    SnippetModel.Get dbDemo 10 1 (some "driver: bad conversion") =
      (none, some (.otherErr "driver: bad conversion")) :=
  ⟨(Get_translates_noRows ⟨[], 1⟩ 0 1 none).1 rfl,
   (Get_translates_noRows dbDemo 10 1 (some "driver: bad conversion")).2.2
     ⟨1, "a", "x", 0, 100⟩ "driver: bad conversion" rfl rfl⟩

/-! ### C10 — Get returns exactly one non-nil result -/

/-- C10: of Go's `(*Snippet, error)` pair returned by `SnippetModel.Get`,
exactly one slot is non-nil: a nil error comes with the matched row (every
field scanned from it), and a non-nil error comes with a nil pointer. -/
theorem Get_result_exclusive (db : Database) (now : Int) (id : Int)
    (fault : Option String) :
    ((SnippetModel.Get db now id fault).2 = none →
      ∃ s, queryRowGet db now id = some s ∧
        (SnippetModel.Get db now id fault).1 = some s) ∧
    ((SnippetModel.Get db now id fault).2 ≠ none →
      (SnippetModel.Get db now id fault).1 = none) := by
  unfold SnippetModel.Get rowScan
  cases hq : queryRowGet db now id with
  | none => simp
  | some s => cases fault <;> simp

/-- The exclusivity law at a concrete input: looking up the live row with
id 1 yields the row and a nil error. -/
theorem Get_result_exclusive_witness :
    (SnippetModel.Get dbDemo 10 1 none).1 = some ⟨1, "a", "x", 0, 100⟩ := by
  obtain ⟨s, hs, h1⟩ := (Get_result_exclusive dbDemo 10 1 none).1 rfl
  have h2 : some (⟨1, "a", "x", 0, 100⟩ : Snippet) = some s :=
    (by decide : queryRowGet dbDemo 10 1 = some ⟨1, "a", "x", 0, 100⟩).symm.trans hs
  exact h1.trans (congrArg some (Option.some.inj h2).symm)

/-! ### C8 — Insert computes the timestamps and returns the new id -/

/-- C8: a successful `SnippetModel.Insert` stores exactly one new row with
`created = now` and `expires = now + expiresDays` days, and returns the
database-assigned identifier of that row with a nil error; a statement or
connection failure of `Exec` returns the error with id 0 and leaves the
table untouched (no retry), and a `LastInsertId` failure likewise returns
the error with id 0. -/
theorem Insert_spec (db : Database) (now : Int) (title content : String)
    (days : Int) (lastIdFault : Option String) :
    (SnippetModel.Insert db now title content days none none =
      ((db.nextId, none),
       ⟨db.rows ++ [⟨db.nextId, title, content, now, now + days * secondsPerDay⟩],
        db.nextId + 1⟩)) ∧
    (∀ e, SnippetModel.Insert db now title content days (some e) lastIdFault =
      ((0, some (.otherErr e)), db)) ∧
    (∀ e, (SnippetModel.Insert db now title content days none (some e)).1 =
      (0, some (.otherErr e))) :=
  ⟨rfl, fun _ => rfl, fun _ => rfl⟩

/-- The insert law at a concrete input: inserting into an empty table at
time 0 with a 7-day expiry stores one row expiring at second 604800 and
returns id 1. -/
theorem Insert_spec_witness :
    SnippetModel.Insert ⟨[], 1⟩ 0 "t" "c" 7 none none =
      ((1, none), ⟨[⟨1, "t", "c", 0, 604800⟩], 2⟩) :=
  (Insert_spec ⟨[], 1⟩ 0 "t" "c" 7 none).1

/-! ### C9 — snippetCreate rejects non-POST methods -/

/-- C9: any request to /snippet/create whose method is not POST gets a 405
response whose headers include `Allow: POST`, with the generic method
not-allowed body, and no snippet is created. -/
theorem snippetCreate_non_post (db : Database) (now : Int) (method : String)
    (execFault lastIdFault : Option String) (h : method ≠ "POST") :
    (snippetCreate db now method execFault lastIdFault freshResp).1.code = some 405 ∧
    headerGet (snippetCreate db now method execFault lastIdFault freshResp).1.headers
      "Allow" = some "POST" ∧
    (snippetCreate db now method execFault lastIdFault freshResp).1.body =
      "Method Not Allowed\n" ∧
    (snippetCreate db now method execFault lastIdFault freshResp).2 = db := by
  have hrw : snippetCreate db now method execFault lastIdFault freshResp =
      (clientError
        { freshResp with headers := headerSet freshResp.headers "Allow" "POST" }
        405, db) := by
    unfold snippetCreate
    rw [if_pos h]
  rw [hrw]
  exact ⟨rfl, rfl, rfl, rfl⟩

/-- The 405 path at a concrete input: a GET request to /snippet/create. -/
theorem snippetCreate_non_post_witness :
    (snippetCreate dbDemo 10 "GET" none none freshResp).1.code = some 405 ∧
    headerGet (snippetCreate dbDemo 10 "GET" none none freshResp).1.headers
      "Allow" = some "POST" ∧
    (snippetCreate dbDemo 10 "GET" none none freshResp).1.body =
      "Method Not Allowed\n" ∧
    (snippetCreate dbDemo 10 "GET" none none freshResp).2 = dbDemo :=
  snippetCreate_non_post dbDemo 10 "GET" none none (by decide)

/-! ### C5 — snippetCreate on POST inserts and redirects -/

/-- C5: a POST to /snippet/create (with a fault-free store) inserts the
stage's fixed snippet through `SnippetModel.Insert` and responds with a
303 See Other redirect whose Location is `/snippet/view?id=<new id>`,
where the id is exactly the one the insert returned. -/
theorem snippetCreate_post_redirects (db : Database) (now : Int) :
    (snippetCreate db now "POST" none none freshResp).1.code = some 303 ∧
    headerGet (snippetCreate db now "POST" none none freshResp).1.headers
      "Location" =
      some ("/snippet/view?id=" ++
        toString (SnippetModel.Insert db now "0 snail"
          "0 snaill\nClimb Mount fuji,\nBut slowly, slowly!\n\n- Kobayashi Issa"
          7 none none).1.1) ∧
    (snippetCreate db now "POST" none none freshResp).2 =
      (SnippetModel.Insert db now "0 snail"
        "0 snaill\nClimb Mount fuji,\nBut slowly, slowly!\n\n- Kobayashi Issa"
        7 none none).2 ∧
    (snippetCreate db now "POST" none none freshResp).2.rows =
      db.rows ++ [⟨db.nextId, "0 snail",
        "0 snaill\nClimb Mount fuji,\nBut slowly, slowly!\n\n- Kobayashi Issa",
        now, now + 7 * secondsPerDay⟩] :=
  ⟨rfl, rfl, rfl, rfl⟩

/-! ### C1 — render buffers before committing -/

/-- C1: the buffered render helper never leaks partial template output: if
template execution fails, the response is exactly the generic 500 (status
500, body the generic error text, no byte of the failed template's partial
output); only after a successful buffered execution is the status code
written, followed by the full buffer contents. -/
theorem render_buffer_then_commit (cache : List (String × TemplateSet))
    (status : Int) (page : String) (data : TemplateData) (ts : TemplateSet)
    (hts : cacheLookup cache page = some ts) :
    (∀ e, (ts.exec data).2 = some e →
      (render cache freshResp status page data).code = some 500 ∧
      (render cache freshResp status page data).body = "Internal Server Error\n") ∧
    ((ts.exec data).2 = none →
      (render cache freshResp status page data).code = some status ∧
      (render cache freshResp status page data).body = (ts.exec data).1) := by
  have hr : render cache freshResp status page data =
      (match (ts.exec data).2 with
        | some e => serverError freshResp (.otherErr e)
        | none => write (writeHeader freshResp status) (ts.exec data).1) := by
    unfold render
    rw [hts]
  cases hbuf : (ts.exec data).2 with
  | some e =>
    refine ⟨fun e2 _ => ?_, fun hnone => ?_⟩
    · rw [hr, hbuf]
      exact ⟨rfl, rfl⟩
    · exact Option.noConfusion hnone
  | none =>
    refine ⟨fun e2 h2 => ?_, fun _ => ?_⟩
    · exact Option.noConfusion h2
    · rw [hr, hbuf]
      exact ⟨rfl, by simp [write, writeHeader, freshResp]⟩

/-- A failing template set: its partial output is discarded. -/
def tsFailing : TemplateSet :=
  ⟨fun _ => ("<html><body>partial", some "template: fail")⟩

/-- A succeeding template set producing a fixed page. -/
def tsWorking : TemplateSet := ⟨fun _ => ("FULLPAGE", none)⟩

/-- Per-request data used in concrete render runs. -/
def demoData : TemplateData := ⟨2023, none, []⟩

/-- The buffer-then-commit law at concrete inputs: a failing template gets
the exact generic 500 response, a succeeding one gets the requested status
and the full page. -/
theorem render_buffer_then_commit_witness :
    (render [("view.tmpl.html", tsFailing)] freshResp 200 "view.tmpl.html"
      demoData).code = some 500 ∧
    (render [("view.tmpl.html", tsFailing)] freshResp 200 "view.tmpl.html"
      demoData).body = "Internal Server Error\n" ∧
    (render [("home.tmpl.html", tsWorking)] freshResp 200 "home.tmpl.html"
      demoData).code = some 200 ∧
    (render [("home.tmpl.html", tsWorking)] freshResp 200 "home.tmpl.html"
      demoData).body = "FULLPAGE" := by
  obtain ⟨hf1, hf2⟩ :=
    (render_buffer_then_commit [("view.tmpl.html", tsFailing)] 200
      "view.tmpl.html" demoData tsFailing rfl).1 "template: fail" rfl
  obtain ⟨hg1, hg2⟩ :=
    (render_buffer_then_commit [("home.tmpl.html", tsWorking)] 200
      "home.tmpl.html" demoData tsWorking rfl).2 rfl
  exact ⟨hf1, hf2, hg1, hg2⟩

/-! ### C7 — the template cache build fails fast -/

/-- Whether an Except carries a value (`Except.isOk`). -/
def exceptOk {ε α : Type} : Except ε α → Bool
  | .ok _ => true
  | .error _ => false

/-- The page loop aborts with the first parse error: if any page of the
remaining list fails to parse, no cache comes back, whatever was already
accumulated. -/
theorem buildCacheLoop_fail_fast
    (parseFiles : List String → Except String TemplateSet) :
    ∀ (pages : List String) (cache : List (String × TemplateSet)),
      (∃ p ∈ pages, exceptOk (parseFiles
        ["./ui/html/base.tmpl.html", "./ui/html/partials/nav.tmpl.html", p])
        = false) →
      exceptOk (buildCacheLoop parseFiles pages cache) = false := by
  intro pages
  induction pages with
  | nil => intro cache h; obtain ⟨p, hp, _⟩ := h; cases hp
  | cons page rest ih =>
    intro cache h
    unfold buildCacheLoop
    cases hparse : parseFiles
        ["./ui/html/base.tmpl.html", "./ui/html/partials/nav.tmpl.html", page] with
    | error e => rfl
    | ok ts =>
      obtain ⟨p, hp, hbad⟩ := h
      rcases List.mem_cons.mp hp with heq | hrest
      · subst heq
        rw [hparse] at hbad
        exact absurd hbad (by simp [exceptOk])
      · exact ih _ ⟨p, hrest, hbad⟩

/-- C7: if parsing any single page fails, `newTemplateCache` returns an
error and no cache mapping — partially built caches are never handed out. -/
theorem newTemplateCache_fail_fast (globFault : Option String)
    (pages : List String)
    (parseFiles : List String → Except String TemplateSet)
    (hfail : ∃ p ∈ pages, exceptOk (parseFiles
      ["./ui/html/base.tmpl.html", "./ui/html/partials/nav.tmpl.html", p])
      = false) :
    exceptOk (newTemplateCache globFault pages parseFiles) = false := by
  cases globFault with
  | some e => rfl
  | none => exact buildCacheLoop_fail_fast parseFiles pages [] hfail

/-- A parse oracle under which exactly one page template is broken. -/
def parseOneBad : List String → Except String TemplateSet :=
  fun files =>
    if files.contains "./ui/html/pages/broken.tmpl.html" then
      .error "template: parse error"
    else .ok tsWorking

/-- The fail-fast law at a concrete input: a glob result with one broken
page aborts the whole build. -/
theorem newTemplateCache_fail_fast_witness :
    exceptOk (newTemplateCache none
      ["./ui/html/pages/home.tmpl.html", "./ui/html/pages/broken.tmpl.html"]
      parseOneBad) = false :=
  newTemplateCache_fail_fast none
    ["./ui/html/pages/home.tmpl.html", "./ui/html/pages/broken.tmpl.html"]
    parseOneBad ⟨"./ui/html/pages/broken.tmpl.html", by simp, rfl⟩

/-! ### C2 — Latest: unexpired, descending ids, at most 10 -/

/-- C2: any list `SnippetModel.Latest` returns without error holds only
snippets with `expires > now`, is ordered by id strictly descending
(ids are primary keys, hence pairwise distinct in the table), and has at
most 10 entries. -/
theorem Latest_spec (db : Database) (now : Int) (qErr : Option GoError)
    (l : List Snippet) (hids : (db.rows.map Snippet.id).Nodup)
    (hok : (SnippetModel.Latest db now qErr).1 = some l) :
    (∀ s ∈ l, now < s.expires) ∧
    l.Pairwise (fun a b => b.id < a.id) ∧
    l.length ≤ 10 := by
  cases qErr with
  | some e => simp [SnippetModel.Latest] at hok
  | none =>
    simp only [SnippetModel.Latest, Option.some.injEq] at hok
    subst hok
    refine ⟨fun s hs => mem_queryLatest_unexpired db now s hs, ?_, ?_⟩
    · have hsorted : (List.insertionSort idGE
          (db.rows.filter (fun s => decide (now < s.expires)))).Pairwise idGE :=
        List.sorted_insertionSort idGE _
      have hndf : ((db.rows.filter
          (fun s => decide (now < s.expires))).map Snippet.id).Nodup :=
        List.Nodup.sublist ((List.filter_sublist db.rows).map Snippet.id) hids
      have hnds : ((List.insertionSort idGE
          (db.rows.filter (fun s => decide (now < s.expires)))).map
            Snippet.id).Nodup :=
        ((List.perm_insertionSort idGE _).map Snippet.id).nodup_iff.mpr hndf
      have hne : (List.insertionSort idGE
          (db.rows.filter (fun s => decide (now < s.expires)))).Pairwise
            (fun a b => a.id ≠ b.id) :=
        List.pairwise_map.mp hnds
      have hstrict : (List.insertionSort idGE
          (db.rows.filter (fun s => decide (now < s.expires)))).Pairwise
            (fun a b => b.id < a.id) :=
        (hsorted.and hne).imp (fun h => lt_of_le_of_ne h.1 (Ne.symm h.2))
      exact hstrict.sublist (List.take_sublist _ _)
    · exact List.length_take_le _ _

/-- The Latest law at a concrete input: on `dbDemo` at time 10 the result
is the two unexpired rows, newest id first. -/
theorem Latest_spec_witness :
    (∀ s ∈ [(⟨3, "c", "z", 0, 100⟩ : Snippet), ⟨1, "a", "x", 0, 100⟩],
      (10 : Int) < s.expires) ∧
    List.Pairwise (fun a b : Snippet => b.id < a.id)
      [⟨3, "c", "z", 0, 100⟩, ⟨1, "a", "x", 0, 100⟩] ∧
    ([(⟨3, "c", "z", 0, 100⟩ : Snippet), ⟨1, "a", "x", 0, 100⟩]).length ≤ 10 :=
  Latest_spec dbDemo 10 none
    [⟨3, "c", "z", 0, 100⟩, ⟨1, "a", "x", 0, 100⟩] (by decide) (by decide)

/-! ### C6 — expired rows are invisible to Get and Latest -/

/-- C6: a stored row whose expiry is not in the future is returned by
neither `Get` (at any id) nor `Latest`, even though it stays in the table
(`hr` — reads never delete it). -/
theorem expired_snippet_invisible (db : Database) (now : Int) (id : Int)
    (fault : Option String) (qErr : Option GoError) (r : Snippet)
    (hr : r ∈ db.rows) (hexp : r.expires ≤ now) :
    (SnippetModel.Get db now id fault).1 ≠ some r ∧
    r ∉ ((SnippetModel.Latest db now qErr).1.getD []) := by
  constructor
  · intro hget
    obtain ⟨s, hs, h1⟩ :=
      (Get_result_exclusive db now id fault).1 (by
        cases h2 : (SnippetModel.Get db now id fault).2 with
        | none => rfl
        | some e =>
          exact absurd (((Get_result_exclusive db now id fault).2
            (by rw [h2]; exact fun h => Option.noConfusion h)).symm.trans hget)
            (fun h => Option.noConfusion h))
    have hsr : s = r := Option.some.inj (h1.symm.trans hget)
    subst hsr
    exact absurd (queryRowGet_found db now id s hs).1 (not_lt.mpr hexp)
  · cases qErr with
    | some e => simp [SnippetModel.Latest]
    | none =>
      intro hmem
      simp only [SnippetModel.Latest, Option.getD_some] at hmem
      exact absurd (mem_queryLatest_unexpired db now r hmem) (not_lt.mpr hexp)

/-- The expiry law at a concrete input: the row with id 2 of `dbDemo`
expired at time 5 and is invisible at time 10. -/
theorem expired_snippet_invisible_witness :
    (SnippetModel.Get dbDemo 10 2 none).1 ≠ some ⟨2, "b", "y", 0, 5⟩ ∧
    (⟨2, "b", "y", 0, 5⟩ : Snippet) ∉
      ((SnippetModel.Latest dbDemo 10 none).1.getD []) :=
  expired_snippet_invisible dbDemo 10 2 none none ⟨2, "b", "y", 0, 5⟩
    (by decide) (by decide)

end SnippetBox
